import Mathlib

/-!
# Circuit-Simulator: verification of the specification against the code

Shallow embedding of `src/classes.py` (classes `CircuitSimulator`, `Ammeter`,
`Voltmeter`, `Ohmmeter`, `RollingAverageOhmmeter`).

Modelling conventions:
* Python floats are modelled as exact rationals (`ℚ`).  The special value
  `float('inf')`, which the code produces explicitly via the `I == 0` policy,
  is modelled by the extended type `PFloat` (`num q` or `inf`).
* A Python expression that raises an exception (`ZeroDivisionError` for
  `x / 0.0`, `TypeError` for arithmetic on `None`) is modelled by `none` in an
  `Option`-valued result; `some` is the normal return.
* `None` sentinels for "no sample yet" fields are `Option ℚ` with `none`.
* Within one tick the several `time.time()` calls are modelled by one `now`
  parameter (the cooperative scheduler runs a tick without suspension).
* Numeric string formatting (`:.4f`, `:.5g`) is a presentation detail per the
  spec; the log-line templates take already-rendered number strings produced
  by abstract renderers `ℚ → String` / `PFloat → String`.
-/

/-- Extended float value: a finite rational or positive infinity (the only
non-finite value the code produces, via `float('inf')`). -/
inductive PFloat where
  | num (q : ℚ)
  | inf
  deriving DecidableEq, Repr

/-- IEEE-style addition restricted to the values that occur: finite plus
finite is finite, anything plus `+inf` is `+inf`. -/
def PFloat.add : PFloat → PFloat → PFloat
  | PFloat.num a, PFloat.num b => PFloat.num (a + b)
  | _, _ => PFloat.inf

/-- `sum(v for v, t in values)` over a list of `(resistance, timestamp)`
pairs, starting from `0` as Python's `sum` does. -/
def pfsum (l : List (PFloat × ℚ)) : PFloat :=
  l.foldl (fun acc p => PFloat.add acc p.1) (PFloat.num 0)

/-- Division of an extended value by a (positive) list length:
`inf / n = inf`, `num a / n = num (a / n)`. -/
def pfdivNat (x : PFloat) (n : ℕ) : PFloat :=
  match x with
  | PFloat.num a => PFloat.num (a / (n : ℚ))
  | PFloat.inf => PFloat.inf

/-- Arithmetic mean of the retained `(resistance, timestamp)` entries:
`sum(v for v, t in values) / len(values)`. -/
def arithMean (l : List (PFloat × ℚ)) : PFloat :=
  pfdivNat (pfsum l) l.length

-- ============================================================
-- CircuitSimulator
-- ============================================================

/-- State of `CircuitSimulator.__init__`: the configuration plus the
`start_time` field, which is `None` until `start()` is called. -/
structure CircuitSimulator where
  R1_start : ℚ
  R1_end : ℚ
  R2_start : ℚ
  R2_end : ℚ
  RL : ℚ
  VS : ℚ
  duration : ℚ
  start_time : Option ℚ
  deriving DecidableEq, Repr

/-- The defaults of `CircuitSimulator.__init__`, after `start()` set
`start_time` (here to time `0`). -/
def defaultSim : CircuitSimulator :=
  { R1_start := 0, R1_end := 100000, R2_start := 100000, R2_end := 0,
    RL := 30000, VS := 10, duration := 10, start_time := some 0 }

/-- `CircuitSimulator.get_resistance(current_time)`:
`elapsed = current_time - start_time`;
`R = R_start + (R_end - R_start) * (elapsed / duration)` for each resistor.
`none` models the `TypeError` when `start_time` is still `None` and the
`ZeroDivisionError` when `duration = 0`. -/
def get_resistance (sim : CircuitSimulator) (current_time : ℚ) :
    Option (ℚ × ℚ) :=
  match sim.start_time with
  | none => none
  | some s =>
    if sim.duration = 0 then none
    else
      let elapsed := current_time - s
      some (sim.R1_start + (sim.R1_end - sim.R1_start) * (elapsed / sim.duration),
            sim.R2_start + (sim.R2_end - sim.R2_start) * (elapsed / sim.duration))

/-- `CircuitSimulator.get_values(current_time)`:
`IL = VS / (R1 + RL + R1 * RL / R2)`, `V = IL * RL`, returning
`(V, IL, current_time)`.  `none` models the `ZeroDivisionError` Python raises
when `R2 = 0` (in `R1 * RL / R2`) or when the denominator is `0`. -/
def get_values (sim : CircuitSimulator) (current_time : ℚ) :
    Option (ℚ × ℚ × ℚ) :=
  match get_resistance sim current_time with
  | none => none
  | some (R1, R2) =>
    if R2 = 0 then none
    else
      let denom := R1 + sim.RL + R1 * sim.RL / R2
      if denom = 0 then none
      else
        let IL := sim.VS / denom
        some (IL * sim.RL, IL, current_time)

-- ============================================================
-- Ammeter / Voltmeter (PeriodicSampler state)
-- ============================================================

/-- Shared state of `Ammeter` / `Voltmeter`: `last_value` and
`last_timestamp`, both `None` until the first tick. -/
structure Meter where
  last_value : Option ℚ
  last_timestamp : Option ℚ
  deriving DecidableEq, Repr

/-- `__init__`: `last_value = None`, `last_timestamp = None`. -/
def Meter.init : Meter := { last_value := none, last_timestamp := none }

/-- `get_last_value()`: returns `(last_value, last_timestamp)`. -/
def get_last_value (m : Meter) : Option ℚ × Option ℚ :=
  (m.last_value, m.last_timestamp)

-- ============================================================
-- Ohmmeter (instantaneous estimator state)
-- ============================================================

/-- State of `Ohmmeter`: last pushed voltage and current (both `None` until
set) and the timestamp of the last computation. -/
structure OhmState where
  voltage : Option ℚ
  current : Option ℚ
  last_timestamp : Option ℚ
  deriving DecidableEq, Repr

/-- `Ohmmeter.__init__`: `voltage = None`, `current = None`,
`last_timestamp = None`. -/
def OhmState.init : OhmState :=
  { voltage := none, current := none, last_timestamp := none }

/-- `Ohmmeter.set_voltage(value)`. -/
def set_voltage (st : OhmState) (value : ℚ) : OhmState :=
  { st with voltage := some value }

/-- `Ohmmeter.set_current(value)`. -/
def set_current (st : OhmState) (value : ℚ) : OhmState :=
  { st with current := some value }

-- ============================================================
-- Log-line templates (f-strings, numbers already rendered)
-- ============================================================

/-- `f'{name} reading at timestamp {timestamp:.4f} s : {value:.5g} V'`. -/
def voltmeterLine (ts v : String) : String :=
  "Voltmeter reading at timestamp " ++ ts ++ " s : " ++ v ++ " V"

/-- `f'{name} reading at timestamp {timestamp:.4f} s : {value:.5g} A'`. -/
def ammeterLine (ts v : String) : String :=
  "Ammeter reading at timestamp " ++ ts ++ " s : " ++ v ++ " A"

/-- `f'{name} reading at timestamp {timestamp:.4f} s : {resistance:.4f} Ω'`
printed by `Ohmmeter.start` (note: the *sampler* wording, not
"calculated RL"). -/
def ohmmeterLine (ts v : String) : String :=
  "Ohmmeter reading at timestamp " ++ ts ++ " s : " ++ v ++ " Ω"

/-- `f'{name} calculated RL (rolling average): {RL_avg:.4f} Ω'` printed by
`RollingAverageOhmmeter.start`. -/
def rollingLine (v : String) : String :=
  "RollingAverageOhmmeter calculated RL (rolling average): " ++ v ++ " Ω"

/-- Decidable check that a character list contains the word
"calculated" as a contiguous sublist. -/
def hasCalcAux : List Char → Bool
  | [] => "calculated".data.isPrefixOf []
  | c :: rest => "calculated".data.isPrefixOf (c :: rest) || hasCalcAux rest

/-- Decidable check that a string contains the substring "calculated"
(present in every line of the claimed estimator format
`"<Kind> calculated RL (<mode>): <value> Ω"`). -/
def hasCalc (s : String) : Bool := hasCalcAux s.data

-- ============================================================
-- One tick of each periodic task (body of the while-loop)
-- ============================================================

/-- One tick of `Voltmeter.start`: read
`self.last_value, _, self.last_timestamp = simulator.get_values(time.time())`,
print the reading, push it with `ohmmeter.set_voltage`.  `none` models a
raised exception (propagated from `get_values`, or the `TypeError` of
`last_timestamp - start_time` when `start_time` is `None`). -/
def voltmeterTick (rQ : ℚ → String) (sim : CircuitSimulator) (ohm : OhmState)
    (now : ℚ) : Option (Meter × OhmState × String) :=
  match get_values sim now with
  | none => none
  | some (V, _, ts) =>
    match sim.start_time with
    | none => none
    | some s =>
      some ({ last_value := some V, last_timestamp := some ts },
            set_voltage ohm V,
            voltmeterLine (rQ (ts - s)) (rQ V))

/-- One tick of `Ammeter.start`: as `voltmeterTick` but it keeps the current
(`_, self.last_value, self.last_timestamp = ...`) and pushes it with
`ohmmeter.set_current`. -/
def ammeterTick (rQ : ℚ → String) (sim : CircuitSimulator) (ohm : OhmState)
    (now : ℚ) : Option (Meter × OhmState × String) :=
  match get_values sim now with
  | none => none
  | some (_, I, ts) =>
    match sim.start_time with
    | none => none
    | some s =>
      some ({ last_value := some I, last_timestamp := some ts },
            set_current ohm I,
            ammeterLine (rQ (ts - s)) (rQ I))

/-- One tick of `Ohmmeter.start`: if both voltage and current have been
observed, compute
`resistance = voltage / current if current != 0 else float('inf')`,
stamp `last_timestamp`, and emit the log line; otherwise do nothing.
The second component is `none` when the tick computed and emitted
nothing. -/
def ohmmeterTick (rP : PFloat → String) (rQ : ℚ → String)
    (sim : CircuitSimulator) (st : OhmState) (now : ℚ) :
    Option (OhmState × Option (PFloat × String)) :=
  match st.voltage, st.current with
  | some v, some c =>
    let resistance := if c = 0 then PFloat.inf else PFloat.num (v / c)
    match sim.start_time with
    | none => none
    | some s =>
      some ({ st with last_timestamp := some now },
            some (resistance, ohmmeterLine (rQ (now - s)) (rP resistance)))
  | _, _ => some (st, none)

-- ============================================================
-- RollingAverageOhmmeter
-- ============================================================

/-- State of `RollingAverageOhmmeter`: the inherited `voltage` / `current`
fields plus the `values` list of `(RL, timestamp)` pairs. -/
structure RollState where
  voltage : Option ℚ
  current : Option ℚ
  values : List (PFloat × ℚ)
  deriving DecidableEq, Repr

/-- `RollingAverageOhmmeter.__init__`: inherited `None` sentinels and an
empty `values` list. -/
def RollState.init : RollState :=
  { voltage := none, current := none, values := [] }

/-- `RL = V / I if I != 0 else float('inf')` where `V` and `I` are the pulled
last values (possibly `None`).  Python evaluates `I != 0` first: `None != 0`
is `True`, so a `None` operand reaches the division and raises `TypeError`
(modelled by `none`); only `I == 0.0` yields the `inf` policy. -/
def instRL (V I : Option ℚ) : Option PFloat :=
  if I = some 0 then some PFloat.inf
  else
    match V, I with
    | some v, some i => some (PFloat.num (v / i))
    | _, _ => none

/-- `RL_avg = sum(v for v, t in self.values) / len(self.values)
if self.values else float('inf')`. -/
def mkAvg (l : List (PFloat × ℚ)) : PFloat :=
  if l.isEmpty then PFloat.inf else pfdivNat (pfsum l) l.length

/-- One tick of `RollingAverageOhmmeter.start`: pull `V` and `I` from the two
samplers; if `self.voltage != V or self.current != I`, compute `RL` and
append `(RL, now)`, updating the stored voltage/current; then prune `values`
to the entries with `now - t <= 2`, compute the rolling average, and emit the
log line.  `none` models the `TypeError` raised when `instRL` hits a `None`
operand. -/
def rollingTick (rP : PFloat → String) (pulledV pulledI : Option ℚ)
    (now : ℚ) (st : RollState) : Option (RollState × PFloat × String) :=
  let updated :=
    if st.voltage ≠ pulledV ∨ st.current ≠ pulledI then
      match instRL pulledV pulledI with
      | none => none
      | some rl =>
        some { voltage := pulledV, current := pulledI,
               values := st.values ++ [(rl, now)] }
    else some st
  match updated with
  | none => none
  | some st1 =>
    let pruned := st1.values.filter (fun p => decide (now - p.2 ≤ 2))
    let avg := mkAvg pruned
    some ({ st1 with values := pruned }, avg, rollingLine (rP avg))

-- ============================================================
-- Claims C1, C2, C4 (about the simulator)
-- ============================================================

/-- C1: the claim says `get_values` applies a defined zero-division policy at
`R2 = 0` and does not raise.  In fact the code has no guard: Python raises
`ZeroDivisionError` on `R1 * RL / R2` when `R2 = 0` (float division by zero
raises in Python, it does not yield `inf`).  At the default configuration,
`t = 10` gives `R2 = 0` and the call crashes, modelled by `none`. -/
theorem C1_zero_div_crash : get_values defaultSim 10 = none := by
  have h1 : get_resistance defaultSim 10 = some (100000, 0) := by
    unfold get_resistance defaultSim
    norm_num
  unfold get_values
  rw [h1]
  norm_num

/-- C2: for `t` in `[0, duration]` (with `start()` called, `duration ≠ 0`),
`get_resistance` returns R1 and R2 linearly interpolated between the
configured start and end values over elapsed time, exactly the start values
at elapsed time `0`, and exactly the end values at elapsed time `duration`. -/
theorem C2_linear_interpolation (sim : CircuitSimulator) (s t : ℚ)
    (hs : sim.start_time = some s) (hd : sim.duration ≠ 0)
    (h0 : 0 ≤ t - s) (h1 : t - s ≤ sim.duration) :
    get_resistance sim t =
      some ((1 - (t - s) / sim.duration) * sim.R1_start
              + ((t - s) / sim.duration) * sim.R1_end,
            (1 - (t - s) / sim.duration) * sim.R2_start
              + ((t - s) / sim.duration) * sim.R2_end)
    ∧ (t = s → get_resistance sim t = some (sim.R1_start, sim.R2_start))
    ∧ (t - s = sim.duration →
        get_resistance sim t = some (sim.R1_end, sim.R2_end)) := by
  refine ⟨?_, ?_, ?_⟩
  · simp only [get_resistance, hs, if_neg hd]
    have h : ∀ a b : ℚ,
        a + (b - a) * ((t - s) / sim.duration)
          = (1 - (t - s) / sim.duration) * a + ((t - s) / sim.duration) * b := by
      intro a b; ring
    rw [h, h]
  · intro ht
    simp only [get_resistance, hs, if_neg hd, ht, sub_self, zero_div,
      mul_zero, add_zero]
  · intro ht
    simp only [get_resistance, hs, if_neg hd, ht, div_self hd, mul_one]
    simp only [Option.some.injEq, Prod.mk.injEq]
    constructor <;> ring

/-- Witness for C2 at the default configuration with `s = 0`, `t = 4`. -/
theorem C2_witness :
    defaultSim.start_time = some 0 ∧ defaultSim.duration ≠ 0
    ∧ (0 : ℚ) ≤ 4 - 0 ∧ (4 : ℚ) - 0 ≤ defaultSim.duration
    ∧ (get_resistance defaultSim 4 =
        some ((1 - ((4 : ℚ) - 0) / defaultSim.duration) * defaultSim.R1_start
                + (((4 : ℚ) - 0) / defaultSim.duration) * defaultSim.R1_end,
              (1 - ((4 : ℚ) - 0) / defaultSim.duration) * defaultSim.R2_start
                + (((4 : ℚ) - 0) / defaultSim.duration) * defaultSim.R2_end)
        ∧ ((4 : ℚ) = 0 →
            get_resistance defaultSim 4 =
              some (defaultSim.R1_start, defaultSim.R2_start))
        ∧ ((4 : ℚ) - 0 = defaultSim.duration →
            get_resistance defaultSim 4 =
              some (defaultSim.R1_end, defaultSim.R2_end))) :=
  ⟨rfl, by norm_num [defaultSim], by norm_num, by norm_num [defaultSim],
    C2_linear_interpolation defaultSim 0 4 rfl (by norm_num [defaultSim])
      (by norm_num) (by norm_num [defaultSim])⟩

/-- C4: whenever `get_values` returns (so in particular `R2 ≠ 0` and no
exception was raised), the returned voltage and current satisfy
`V = I * RL`, because the code computes `V = IL * RL`. -/
theorem C4_ohm_law (sim : CircuitSimulator) (t V I ts : ℚ)
    (h : get_values sim t = some (V, I, ts)) : V = I * sim.RL := by
  unfold get_values at h
  split at h
  · exact Option.noConfusion h
  · split at h
    · exact Option.noConfusion h
    · dsimp only at h
      split at h
      · exact Option.noConfusion h
      · simp only [Option.some.injEq, Prod.mk.injEq] at h
        rw [← h.1, ← h.2.1]

/-- Witness for C4: at the default configuration and `t = 0`,
`get_values` returns `V = 10`, `I = 1/3000`, and `10 = (1/3000) * 30000`. -/
theorem C4_witness :
    get_values defaultSim 0 = some (10, 1/3000, 0)
    ∧ (10 : ℚ) = (1/3000) * defaultSim.RL := by
  have h : get_values defaultSim 0 = some (10, 1/3000, 0) := by
    have h1 : get_resistance defaultSim 0 = some (0, 100000) := by
      unfold get_resistance defaultSim
      norm_num
    unfold get_values
    rw [h1]
    norm_num [defaultSim]
  exact ⟨h, C4_ohm_law defaultSim 0 10 (1/3000) 0 h⟩

-- ============================================================
-- Helper lemmas (not tied to a single claim)
-- ============================================================

/-- Every successful `rollingTick` emits exactly
`rollingLine (rP avg)` for the average it reports. -/
theorem rollingTick_line_eq (rP : PFloat → String) (pV pI : Option ℚ)
    (now : ℚ) (st st' : RollState) (avg : PFloat) (line : String)
    (h : rollingTick rP pV pI now st = some (st', avg, line)) :
    line = rollingLine (rP avg) := by
  unfold rollingTick at h
  dsimp only at h
  split at h
  · exact Option.noConfusion h
  · simp only [Option.some.injEq, Prod.mk.injEq] at h
    rw [← h.2.2, ← h.2.1]

-- ============================================================
-- Claim C3 (rolling window and mean)
-- ============================================================

/-- C3: on every completed rolling-estimator tick, after pruning every
retained `(resistance, timestamp)` entry has age at most `2` relative to the
current time, and the reported value is the arithmetic mean of exactly the
retained entries, or `+inf` when the retained sequence is empty. -/
theorem C3_window_and_mean (rP : PFloat → String) (pV pI : Option ℚ)
    (now : ℚ) (st st' : RollState) (avg : PFloat) (line : String)
    (h : rollingTick rP pV pI now st = some (st', avg, line)) :
    (∀ p ∈ st'.values, now - p.2 ≤ 2)
    ∧ (st'.values = [] → avg = PFloat.inf)
    ∧ (st'.values ≠ [] → avg = arithMean st'.values) := by
  unfold rollingTick at h
  dsimp only at h
  split at h
  · exact Option.noConfusion h
  · simp only [Option.some.injEq, Prod.mk.injEq] at h
    obtain ⟨hst, havg, -⟩ := h
    subst hst
    subst havg
    dsimp only
    refine ⟨?_, ?_, ?_⟩
    · intro p hp
      exact of_decide_eq_true (List.mem_filter.mp hp).2
    · intro he
      simp only [mkAvg, he, List.isEmpty_nil, if_true]
    · intro hne
      unfold mkAvg arithMean
      rw [if_neg (fun hc => hne (List.isEmpty_iff.mp hc))]

/-- Witness for C3: one tick with unchanged inputs on a window holding the
single entry `(4 Ω, t = 2)` at `now = 3`; the entry is retained (age `1`)
and the reported value is its mean, `4`. -/
theorem C3_witness :
    (∀ p ∈ [(PFloat.num 4, (2 : ℚ))], (3 : ℚ) - p.2 ≤ 2)
    ∧ (([(PFloat.num 4, (2 : ℚ))] : List (PFloat × ℚ)) = []
        → PFloat.num 4 = PFloat.inf)
    ∧ (([(PFloat.num 4, (2 : ℚ))] : List (PFloat × ℚ)) ≠ []
        → PFloat.num 4 = arithMean [(PFloat.num 4, 2)]) := by
  have h : rollingTick (fun _ => "x") (some 1) (some 1) 3
      { voltage := some 1, current := some 1, values := [(PFloat.num 4, 2)] }
      = some ({ voltage := some 1, current := some 1,
                values := [(PFloat.num 4, 2)] },
              PFloat.num 4, rollingLine "x") := by
    norm_num [rollingTick, mkAvg, pfdivNat, pfsum, PFloat.add, List.filter]
  exact C3_window_and_mean _ _ _ _ _ _ _ _ h

-- ============================================================
-- Claim C5 (zero current reports +inf, never raises)
-- ============================================================

/-- C5: when the current is `0`, both estimators report `+infinity` and do
not raise: the instantaneous `Ohmmeter` tick returns normally with
resistance `inf`, the rolling estimator's instantaneous computation yields
`inf`, and its tick completes (`isSome`). -/
theorem C5_zero_current_reports_inf
    (rP : PFloat → String) (rQ : ℚ → String) (sim : CircuitSimulator)
    (s now : ℚ) (hs : sim.start_time = some s)
    (st : OhmState) (v : ℚ) (hv : st.voltage = some v)
    (hc : st.current = some 0)
    (rst : RollState) (pV : Option ℚ)
    (hg : rst.voltage ≠ pV ∨ rst.current ≠ some 0) :
    ohmmeterTick rP rQ sim st now
      = some ({ st with last_timestamp := some now },
              some (PFloat.inf, ohmmeterLine (rQ (now - s)) (rP PFloat.inf)))
    ∧ instRL pV (some 0) = some PFloat.inf
    ∧ (rollingTick rP pV (some 0) now rst).isSome = true := by
  have hb : instRL pV (some 0) = some PFloat.inf := by simp [instRL]
  refine ⟨?_, hb, ?_⟩
  · simp [ohmmeterTick, hv, hc, hs]
  · unfold rollingTick
    dsimp only
    rw [if_pos hg, hb]
    simp

/-- Witness for C5: stored voltage `5`, current `0`, and a rolling estimator
pulling `V = 5`, `I = 0` from its samplers for the first time. -/
theorem C5_witness :
    ohmmeterTick (fun _ => "inf") (fun _ => "1.0000") defaultSim
        { voltage := some 5, current := some 0, last_timestamp := none } 1
      = some ({ voltage := some 5, current := some 0, last_timestamp := some 1 },
              some (PFloat.inf, ohmmeterLine "1.0000" "inf"))
    ∧ instRL (some 5) (some 0) = some PFloat.inf
    ∧ (rollingTick (fun _ => "inf") (some 5) (some 0) 1 RollState.init).isSome
        = true :=
  C5_zero_current_reports_inf (fun _ => "inf") (fun _ => "1.0000") defaultSim
    0 1 rfl _ 5 rfl rfl RollState.init (some 5)
    (Or.inl (by simp [RollState.init]))

-- ============================================================
-- Claim C6 (unchanged input appends nothing)
-- ============================================================

/-- C6: on a rolling tick where the pulled voltage and current both equal
the stored ones, no new entry is appended (the retained sequence is just the
pruned old one, a sublist of it) and the stored voltage/current are left
unchanged. -/
theorem C6_unchanged_input_no_append
    (rP : PFloat → String) (now : ℚ) (st : RollState) (pV pI : Option ℚ)
    (hV : pV = st.voltage) (hI : pI = st.current) :
    rollingTick rP pV pI now st
      = some ({ st with
                values := st.values.filter (fun p => decide (now - p.2 ≤ 2)) },
              mkAvg (st.values.filter (fun p => decide (now - p.2 ≤ 2))),
              rollingLine
                (rP (mkAvg (st.values.filter (fun p => decide (now - p.2 ≤ 2))))))
    ∧ List.Sublist (st.values.filter (fun p => decide (now - p.2 ≤ 2)))
        st.values := by
  subst hV
  subst hI
  refine ⟨?_, List.filter_sublist _⟩
  unfold rollingTick
  dsimp only
  rw [if_neg (by simp)]

/-- Witness for C6: stored `(V, I) = (2, 3)`, one retained entry `(6 Ω, 1)`,
tick at `now = 2` re-pulling the same `(2, 3)`. -/
theorem C6_witness :
    rollingTick (fun _ => "y") (some 2) (some 3) 2
        { voltage := some 2, current := some 3, values := [(PFloat.num 6, 1)] }
      = some ({ voltage := some 2, current := some 3,
                values := ([(PFloat.num 6, 1)] : List (PFloat × ℚ)).filter
                  (fun p => decide ((2 : ℚ) - p.2 ≤ 2)) },
              mkAvg (([(PFloat.num 6, 1)] : List (PFloat × ℚ)).filter
                  (fun p => decide ((2 : ℚ) - p.2 ≤ 2))),
              rollingLine
                ((fun _ => "y")
                  (mkAvg (([(PFloat.num 6, 1)] : List (PFloat × ℚ)).filter
                    (fun p => decide ((2 : ℚ) - p.2 ≤ 2))))))
    ∧ List.Sublist
        (([(PFloat.num 6, 1)] : List (PFloat × ℚ)).filter
          (fun p => decide ((2 : ℚ) - p.2 ≤ 2)))
        [(PFloat.num 6, 1)] :=
  C6_unchanged_input_no_append (fun _ => "y") 2
    { voltage := some 2, current := some 3, values := [(PFloat.num 6, 1)] }
    (some 2) (some 3) rfl rfl

-- ============================================================
-- Claim C8 (no-sample sentinel; estimator skips before first samples)
-- ============================================================

/-- C8: before a sampler's first tick `get_last_value()` returns the
`(None, None)` sentinel, and an instantaneous-estimator tick with a missing
voltage or current computes nothing, emits nothing, and leaves the state
unchanged. -/
theorem C8_sentinel_and_skip
    (rP : PFloat → String) (rQ : ℚ → String) (sim : CircuitSimulator)
    (st : OhmState) (now : ℚ)
    (h : st.voltage = none ∨ st.current = none) :
    get_last_value Meter.init = (none, none)
    ∧ ohmmeterTick rP rQ sim st now = some (st, none) := by
  refine ⟨rfl, ?_⟩
  rcases h with h | h
  · cases hc : st.current <;> simp [ohmmeterTick, h, hc]
  · cases hv : st.voltage <;> simp [ohmmeterTick, h, hv]

/-- Witness for C8: the freshly initialised estimator (both fields `None`)
ticking at `now = 0`. -/
theorem C8_witness :
    get_last_value Meter.init = (none, none)
    ∧ ohmmeterTick (fun _ => "") (fun _ => "") defaultSim OhmState.init 0
        = some (OhmState.init, none) :=
  C8_sentinel_and_skip (fun _ => "") (fun _ => "") defaultSim OhmState.init 0
    (Or.inl rfl)

-- ============================================================
-- Claim C9 (rolling tick with a lone first sample crashes)
-- ============================================================

/-- C9: the rolling tick's guard only checks that a pulled value differs
from the stored one; on the very first tick after exactly one sampler has
produced a value, the tick reaches `V / I` with the other operand still the
`None` sentinel and raises (`none`), instead of skipping or reporting
"no value yet". -/
theorem C9_one_sided_sample_crashes
    (rP : PFloat → String) (now v i : ℚ) (hi : i ≠ 0) :
    rollingTick rP (some v) none now RollState.init = none
    ∧ rollingTick rP none (some i) now RollState.init = none := by
  constructor
  · simp [rollingTick, instRL, RollState.init]
  · simp [rollingTick, instRL, RollState.init, hi]

/-- Witness for C9 at `v = 1`, `i = 1`, `now = 0`. -/
theorem C9_witness :
    rollingTick (fun _ => "") (some 1) none 0 RollState.init = none
    ∧ rollingTick (fun _ => "") none (some 1) 0 RollState.init = none :=
  C9_one_sided_sample_crashes (fun _ => "") 0 1 1 (by norm_num)

-- ============================================================
-- Claim C7 (log-line formats)
-- ============================================================

/-- C7 counterexample: a concrete instantaneous-`Ohmmeter` tick (voltage
`10 V`, current `1/3000 A`, one second into the run) emits the line
`"Ohmmeter reading at timestamp 1.0000 s : 30000.0000 Ω"`, which does not
contain the word "calculated" and therefore is not of the claimed estimator
form `"<ComponentKind> calculated RL (<mode>): <value> Ω"` (every line of
that form contains it, as the rolling line shows). -/
theorem C7_counterexample :
    ohmmeterTick (fun _ => "30000.0000") (fun _ => "1.0000") defaultSim
        { voltage := some 10, current := some (1/3000), last_timestamp := none }
        1
      = some ({ voltage := some 10, current := some (1/3000),
                last_timestamp := some 1 },
              some (PFloat.num 30000,
                    "Ohmmeter reading at timestamp 1.0000 s : 30000.0000 Ω"))
    ∧ hasCalc "Ohmmeter reading at timestamp 1.0000 s : 30000.0000 Ω" = false
    ∧ hasCalc (rollingLine "42") = true := by
  refine ⟨?_, ?_, ?_⟩
  · norm_num [ohmmeterTick, ohmmeterLine, defaultSim]
    rfl
  · rfl
  · rfl

/-- C7 amended: sampler ticks emit
`"<ComponentKind> reading at timestamp <t> s : <value> <unit>"` with units
`V` and `A`; the `RollingAverageOhmmeter` tick emits
`"RollingAverageOhmmeter calculated RL (rolling average): <value> Ω"`; but
the instantaneous `Ohmmeter` tick emits the sampler-style line
`"Ohmmeter reading at timestamp <t> s : <value> Ω"`, not a
"calculated RL" line. -/
theorem C7_formats_amended
    (rP : PFloat → String) (rQ : ℚ → String) (sim : CircuitSimulator)
    (s now V I ts : ℚ) (hs : sim.start_time = some s)
    (hg : get_values sim now = some (V, I, ts))
    (ohm st : OhmState) (v c : ℚ)
    (hv : st.voltage = some v) (hc : st.current = some c) (hcz : c ≠ 0)
    (pV pI : Option ℚ) (rst : RollState) :
    voltmeterTick rQ sim ohm now
      = some ({ last_value := some V, last_timestamp := some ts },
              set_voltage ohm V, voltmeterLine (rQ (ts - s)) (rQ V))
    ∧ ammeterTick rQ sim ohm now
      = some ({ last_value := some I, last_timestamp := some ts },
              set_current ohm I, ammeterLine (rQ (ts - s)) (rQ I))
    ∧ ohmmeterTick rP rQ sim st now
      = some ({ st with last_timestamp := some now },
              some (PFloat.num (v / c),
                    ohmmeterLine (rQ (now - s)) (rP (PFloat.num (v / c)))))
    ∧ Option.map (fun x => x.2.2) (rollingTick rP pV pI now rst)
        = Option.map (fun x => rollingLine (rP x.2.1))
            (rollingTick rP pV pI now rst) := by
  refine ⟨?_, ?_, ?_, ?_⟩
  · simp [voltmeterTick, hg, hs]
  · simp [ammeterTick, hg, hs]
  · simp [ohmmeterTick, hv, hc, hs, hcz]
  · cases hr : rollingTick rP pV pI now rst with
    | none => rfl
    | some x =>
      obtain ⟨st', avg, line⟩ := x
      simp [rollingTick_line_eq _ _ _ _ _ _ _ _ hr]

/-- Witness for C7 (amended) at the default configuration, `now = 0`,
with stored estimator values `(10, 1/3000)`. -/
theorem C7_witness :
    voltmeterTick (fun _ => "0.0000") defaultSim OhmState.init 0
      = some ({ last_value := some 10, last_timestamp := some 0 },
              set_voltage OhmState.init 10,
              voltmeterLine "0.0000" "0.0000")
    ∧ ammeterTick (fun _ => "0.0000") defaultSim OhmState.init 0
      = some ({ last_value := some (1/3000), last_timestamp := some 0 },
              set_current OhmState.init (1/3000),
              ammeterLine "0.0000" "0.0000")
    ∧ ohmmeterTick (fun _ => "30000.0000") (fun _ => "0.0000") defaultSim
        { voltage := some 10, current := some (1/3000), last_timestamp := none }
        0
      = some ({ voltage := some 10, current := some (1/3000),
                last_timestamp := some 0 },
              some (PFloat.num (10 / (1/3000)),
                    ohmmeterLine "0.0000" "30000.0000"))
    ∧ Option.map (fun x => x.2.2)
        (rollingTick (fun _ => "30000.0000") (some 10) (some (1/3000)) 0
          RollState.init)
        = Option.map (fun x => rollingLine ((fun _ => "30000.0000") x.2.1))
            (rollingTick (fun _ => "30000.0000") (some 10) (some (1/3000)) 0
              RollState.init) := by
  have hg : get_values defaultSim 0 = some (10, 1/3000, 0) := by
    have h1 : get_resistance defaultSim 0 = some (0, 100000) := by
      unfold get_resistance defaultSim
      norm_num
    unfold get_values
    rw [h1]
    norm_num [defaultSim]
  exact C7_formats_amended (fun _ => "30000.0000") (fun _ => "0.0000")
    defaultSim 0 0 10 (1/3000) 0 rfl hg OhmState.init
    { voltage := some 10, current := some (1/3000), last_timestamp := none }
    10 (1/3000) rfl rfl (by norm_num) (some 10) (some (1/3000)) RollState.init
